import Mathlib

/-!
Verification of the slack-to-jira event-handling core: a shallow embedding of
the Python modules under `src/layer/modules` (event state machine, register and
deregister workflows, DynamoDB wrapper, and the transfer engine's pure result
collection, filename generation and markup formatting), together with theorems
settling the specification's claims about them.
-/

set_option autoImplicit false

namespace SlackToJira

/-! ## Exceptions (src/layer/modules/event/exceptions.py and wrapper error types)

Python exceptions relevant to the event lifecycle.  `IgnorableException`
instances are distinguished by the message they are raised with; we record
the raising site as a tag.  `clientExc` stands for an instance of
`SlackSdkWrapper.ClientException` (= `SlackClientError`); `otherExc` stands
for any other `Exception` instance.
-/

inductive IgnTag
  | invalidFormat
  | noDynamoWrapper
  | noJiraWrapper
  | notRegisteredToThread
  | noJiraLinkInfo
deriving DecidableEq, Repr

inductive Exc
  | notHandledExc
  | ignorableExc (tag : IgnTag)
  | clientExc
  | otherExc
deriving DecidableEq, Repr

/-- `isinstance(e, SlackSdkWrapper.ClientException)`: the only exception class
caught by the `_acknowledge_prepare` wrapper in event.py. -/
def Exc.is_client_exception : Exc → Bool
  | .clientExc => true
  | _ => false

/-- `isinstance(e, IgnorableException)`. -/
def Exc.is_ignorable_exception : Exc → Bool
  | .ignorableExc _ => true
  | _ => false

/-! ## Slack message state and acknowledgment (event.py 255-313, slack_sdk_wrapper.py 228-276)

The visible state of the source message is the list of reactions the bot has
added to it.  The slack client calls are external I/O; an `AckEnv` says
whether each call raises, and with which exception, during one acknowledgment.
-/

structure SlackMsg where
  bot_reactions : List String
deriving DecidableEq, Repr

structure AckEnv where
  remove_exc : Option Exc
  add_exc : Option Exc
deriving DecidableEq, Repr

/-- The environment in which the slack client calls succeed. -/
def cleanAckEnv : AckEnv := ⟨none, none⟩

/-- `SlackSdkWrapper.remove_bot_reactions`: removes every reaction the bot has
added to the message (slack_sdk_wrapper.py 243-276); raises per the env. -/
def remove_bot_reactions (env : AckEnv) (_msg : SlackMsg) : Except Exc SlackMsg :=
  match env.remove_exc with
  | some e => .error e
  | none => .ok ⟨[]⟩

/-- `SlackSdkWrapper.add_reaction` (slack_sdk_wrapper.py 228-241); raises per the env. -/
def add_reaction (env : AckEnv) (msg : SlackMsg) (reaction : String) : Except Exc SlackMsg :=
  match env.add_exc with
  | some e => .error e
  | none => .ok ⟨msg.bot_reactions ++ [reaction]⟩

/-- `Event._acknowledge_prepare` (event.py 255-271): first clear the bot's
prior reactions, then run the wrapped acknowledgment body; a raised
`ClientException` is logged and swallowed, any other exception escapes.
Returns the message state together with the escaping exception, if any. -/
def acknowledge_prepare (env : AckEnv) (func : SlackMsg → Except Exc SlackMsg)
    (msg : SlackMsg) : SlackMsg × Option Exc :=
  match remove_bot_reactions env msg with
  | .error e => if e.is_client_exception then (msg, none) else (msg, some e)
  | .ok msg1 =>
    match func msg1 with
    | .error e => if e.is_client_exception then (msg1, none) else (msg1, some e)
    | .ok msg2 => (msg2, none)

/-- `Event.acknowledge_event_success` (event.py 273-289): clear prior
indicators, then add the configured success reaction. -/
def acknowledge_event_success (env : AckEnv) (success_reaction : String)
    (msg : SlackMsg) : SlackMsg × Option Exc :=
  acknowledge_prepare env (fun m => add_reaction env m success_reaction) msg

/-- `Event.acknowledge_event_error` (event.py 291-303): clear prior
indicators, then add the configured error reaction. -/
def acknowledge_event_error (env : AckEnv) (error_reaction : String)
    (msg : SlackMsg) : SlackMsg × Option Exc :=
  acknowledge_prepare env (fun m => add_reaction env m error_reaction) msg

/-- `Event.acknowledge_event_not_handled` (event.py 305-313): the wrapped body
only logs; the `_acknowledge_prepare` wrapper still clears prior indicators. -/
def acknowledge_event_not_handled (env : AckEnv) (msg : SlackMsg) :
    SlackMsg × Option Exc :=
  acknowledge_prepare env (fun m => .ok m) msg

/-- `Event.handle_event` (event.py 212-239).  `proc` is the outcome of
`self._process_event()`: `none` when it returns normally, `some e` when it
raises `e`.  Returns the final message state and the exception escaping
`handle_event`, if any.  An exception raised inside an `except` block
replaces the one being handled (Python semantics), and an exception raised
in the `else` block is not caught by the `except` clauses. -/
def handle_event (env : AckEnv) (success_reaction error_reaction : String)
    (proc : Option Exc) (msg : SlackMsg) : SlackMsg × Option Exc :=
  match proc with
  | none => acknowledge_event_success env success_reaction msg
  | some Exc.notHandledExc => acknowledge_event_not_handled env msg
  | some e =>
    let ack := acknowledge_event_error env error_reaction msg
    match ack.2 with
    | some ae => (ack.1, some ae)
    | none => if e.is_ignorable_exception then (ack.1, none) else (ack.1, some e)

/-! ## Python string-keyed dicts

Registration records are Python dicts with string keys and string values,
modelled as insertion-ordered association lists.  `pySet` is item assignment
(replace in place if the key exists, else append), `pyGet` is `d.get(k)`,
and `pyDictOf l` builds the dict literal whose key/value pairs are written
in the order given by `l` (later occurrences of a key win), which is also
the meaning of Python `{**a, **b, ...}` merges.
-/

abbrev Dict := List (String × String)

def pyGet : Dict → String → Option String
  | [], _ => none
  | kv :: rest, k => if kv.1 = k then some kv.2 else pyGet rest k

def pySet : Dict → String → String → Dict
  | [], k, v => [(k, v)]
  | kv :: rest, k, v => if kv.1 = k then (k, v) :: rest else kv :: pySet rest k v

def pyDictOf (entries : List (String × String)) : Dict :=
  entries.foldl (fun acc kv => pySet acc kv.1 kv.2) []

/-- The value the key `k` would end up with after writing the pairs of `l` in
order into a dict: the value of the last pair of `l` whose key is `k`. -/
def lastVal? : List (String × String) → String → Option String
  | [], _ => none
  | kv :: rest, k =>
    match lastVal? rest k with
    | some v => some v
    | none => if kv.1 = k then some kv.2 else none

/-- Python truthiness of a string-or-None value: `None` and `''` are falsy. -/
def pyTruthy : Option String → Bool
  | none => false
  | some s => s ≠ ""

/-! ## DynamoDB wrapper (dynamodb_wrapper.py)

The table is a map from the compound key `(jira_issue_id, slack_thread_id)`
to an item dict, modelled as an association list with at most one entry per
key (uniqueness is enforced by the store: `put_item` overwrites).
-/

structure DKey where
  jira_issue_id : String
  slack_thread_id : String
deriving DecidableEq, Repr

abbrev Store := List (DKey × Dict)

def storeLookup : Store → DKey → Option Dict
  | [], _ => none
  | e :: rest, key => if e.1 = key then some e.2 else storeLookup rest key

/-- The number of stored records under a given key. -/
def countKey (store : Store) (key : DKey) : Nat :=
  (store.filter fun e => decide (e.1 = key)).length

/-- The stored records under a given key. -/
def entriesFor (store : Store) (key : DKey) : List (DKey × Dict) :=
  store.filter fun e => decide (e.1 = key)

/-- `DynamoDbWrapper.get_item` (dynamodb_wrapper.py 63-76): returns
`response.get('Item', {})`, i.e. the stored item, or an empty dict when no
item exists.  The `Option` is the dict-or-None type of the Python variable
the caller binds the result to; `get_item` itself never produces `none`. -/
def DynamoDbWrapper.get_item (store : Store) (key : DKey) : Option Dict :=
  some ((storeLookup store key).getD [])

/-- `DynamoDbWrapper.delete_item` (dynamodb_wrapper.py 78-85). -/
def DynamoDbWrapper.delete_item (store : Store) (key : DKey) : Store :=
  store.filter fun e => !(decide (e.1 = key))

/-- `DynamoDbWrapper.put_item` (dynamodb_wrapper.py 53-61): stores the item
under the primary key formed by the item's own key attributes, overwriting
any record already present under that key. -/
def DynamoDbWrapper.put_item (store : Store) (item : Dict) : Store :=
  let key : DKey := ⟨(pyGet item "jira_issue_id").getD "", (pyGet item "slack_thread_id").getD ""⟩
  DynamoDbWrapper.delete_item store key ++ [(key, item)]

/-! ## Splitting helpers (Python str.split with sep = a single space) -/

/-- `text.split(' ', maxsplit=1)` as the pair (first element, optional second
element): cut at the first space character, if any. -/
def splitFirstSpace : List Char → List Char × Option (List Char)
  | [] => ([], none)
  | c :: cs =>
    if c = ' ' then ([], some cs)
    else
      let r := splitFirstSpace cs
      (c :: r.1, r.2)

/-- `text.split(' ')`: cut at every space character (adjacent spaces produce
empty fields; the result is never empty). -/
def splitAllSpace : List Char → List (List Char)
  | [] => [[]]
  | c :: cs =>
    match splitAllSpace cs with
    | [] => [[c]]
    | t :: ts => if c = ' ' then [] :: t :: ts else (c :: t) :: ts

/-- `Event._get_thread_id` (event.py 315-327). -/
def get_thread_id (thread_ts channel : String) : String :=
  channel ++ "_" ++ thread_ts

/-! ## Deregister workflow (app_mention_deregister_event.py 72-155) -/

structure DeregisterResult where
  raised : Option Exc
  store : Store
  removedLinks : List (String × String)
deriving DecidableEq, Repr

/-- `AppMentionDeregisterEvent._process_event`.  `has_dynamo` / `has_jira`
say whether the respective wrapper was injected (the `is None` guards).
`raised = none` means the body returned normally; `raised = some e` that it
raised `e`.  `removedLinks` records the `jira_wrapper.remove_link` attempts
(best-effort in the source: their failures are logged and swallowed). -/
def AppMentionDeregisterEvent.process_event
    (has_dynamo has_jira : Bool)
    (sanitized_text thread_ts channel_id : String)
    (store : Store) : DeregisterResult :=
  if sanitized_text = "" then
    ⟨some (.ignorableExc .invalidFormat), store, []⟩
  else if !has_dynamo then
    ⟨some (.ignorableExc .noDynamoWrapper), store, []⟩
  else if !has_jira then
    ⟨some (.ignorableExc .noJiraWrapper), store, []⟩
  else
    let command_parts := splitAllSpace sanitized_text.data
    if command_parts.length ≠ 1 then
      ⟨some (.ignorableExc .invalidFormat), store, []⟩
    else
      let jira_issue_id := String.mk (command_parts.headD [])
      let thread_id := get_thread_id thread_ts channel_id
      let dynamodb_key : DKey := ⟨jira_issue_id, thread_id⟩
      match DynamoDbWrapper.get_item store dynamodb_key with
      | none =>
        ⟨some (.ignorableExc .notRegisteredToThread), store, []⟩
      | some item =>
        if !pyTruthy (pyGet item "jira_link_id") then
          ⟨some (.ignorableExc .noJiraLinkInfo), store, []⟩
        else
          ⟨none, DynamoDbWrapper.delete_item store dynamodb_key,
            [(jira_issue_id, (pyGet item "jira_link_id").getD "")]⟩

/-! ## Register workflow (app_mention_register_event.py 88-215) -/

/-- The collaborator environment of one register run: slack lookups, the jira
link-validation oracle, the id a fresh `add_link` returns, the configured
icon and app name, and the current timestamp. -/
structure RegEnv where
  channel_name : String
  thread_link : String
  app_name : String
  icon_url : String
  icon_title : String
  now : String
  validate_link : String → String → Bool
  new_link_id : String

inductive JiraCall
  | update_link (issue link_id url title : String)
  | add_link (issue url title icon_url icon_title : String)
deriving DecidableEq, Repr

structure RegisterResult where
  raised : Option Exc
  store : Store
  jiraCalls : List JiraCall
deriving DecidableEq, Repr

/-- `AppMentionRegisterEvent._get_link_title` (app_mention_register_event.py 200-215). -/
def AppMentionRegisterEvent.get_link_title (app_name channel_name link_text : String) : String :=
  app_name ++ ": #" ++ channel_name ++ " " ++ link_text

/-- The `remote_link_valid` computation of `_process_event` (lines 147-153):
the fetched registration is non-empty, carries a truthy `jira_link_id`, and
the jira remote link with that id still exists. -/
def register_existing_valid (env : RegEnv) (jira_issue_id : String) (existing_item : Dict) : Bool :=
  !existing_item.isEmpty &&
    (pyTruthy (pyGet existing_item "jira_link_id") &&
      env.validate_link jira_issue_id ((pyGet existing_item "jira_link_id").getD ""))

/-- The item written back by `_process_event` (lines 186-192):
`{**dynamodb_key, **existing_item, 'created_at': now, 'jira_link_id': str(jira_link_id)}`. -/
def register_item (env : RegEnv) (key_dict existing_item : Dict) (jira_link_id : String) : Dict :=
  pyDictOf (key_dict ++ existing_item ++ [("created_at", env.now), ("jira_link_id", jira_link_id)])

/-- `AppMentionRegisterEvent._process_event`. -/
def AppMentionRegisterEvent.process_event
    (has_dynamo has_jira : Bool) (env : RegEnv)
    (sanitized_text thread_ts channel_id : String)
    (store : Store) : RegisterResult :=
  if sanitized_text = "" then
    ⟨some (.ignorableExc .invalidFormat), store, []⟩
  else if !has_dynamo then
    ⟨some (.ignorableExc .noDynamoWrapper), store, []⟩
  else if !has_jira then
    ⟨some (.ignorableExc .noJiraWrapper), store, []⟩
  else
    let split := splitFirstSpace sanitized_text.data
    let command_parts : List String :=
      String.mk split.1 :: (match split.2 with | none => [] | some r => [String.mk r])
    if command_parts.length < 1 then
      ⟨some (.ignorableExc .invalidFormat), store, []⟩
    else
      let jira_issue_id := command_parts.headD ""
      let optional_param : Option String := command_parts[1]?
      let link_text := if pyTruthy optional_param then optional_param.getD "" else thread_ts
      let link_title := AppMentionRegisterEvent.get_link_title env.app_name env.channel_name link_text
      let thread_id := get_thread_id thread_ts channel_id
      let dynamodb_key : DKey := ⟨jira_issue_id, thread_id⟩
      let key_dict : Dict := [("jira_issue_id", jira_issue_id), ("slack_thread_id", thread_id)]
      let existing_item := (DynamoDbWrapper.get_item store dynamodb_key).getD []
      if register_existing_valid env jira_issue_id existing_item then
        let jira_link_id := (pyGet existing_item "jira_link_id").getD ""
        let item := register_item env key_dict existing_item jira_link_id
        ⟨none, DynamoDbWrapper.put_item store item,
          [.update_link jira_issue_id jira_link_id env.thread_link link_title]⟩
      else
        let jira_link_id := env.new_link_id
        let item := register_item env key_dict existing_item jira_link_id
        ⟨none, DynamoDbWrapper.put_item store item,
          [.add_link jira_issue_id env.thread_link link_title env.icon_url env.icon_title]⟩

/-! ## Mention-text sanitization (app_mention_event.py 60-122)

`_sanitize_command_text` runs four `re.sub` passes over the text, in order:
remove `<@...>` user mentions, rewrite `<http(s)://X|label>` to `label`,
rewrite `<http(s)://X>` to `http(s)://X`, collapse runs of two or more
whitespace characters into one space; then strips the result.  Each pass is
embedded as a deterministic matcher (the patterns are such that the regex
match at a position is unique) driven by the standard leftmost-scan of
`re.sub`: at each position, either emit the replacement and resume after the
matched text, or emit the character and advance by one.
-/

/-- Python `\s` on ASCII text. -/
def isPyWhitespace (c : Char) : Bool :=
  c == ' ' || c == '\t' || c == '\n' || c == '\r' || c == '\x0b' || c == '\x0c'

/-- Matcher for `<@[^>]+>` (replacement is empty): returns the replacement
and the rest of the input after the matched text. -/
def matchUserMention : List Char → Option (List Char × List Char)
  | '<' :: '@' :: rest =>
    match rest.takeWhile (fun c => c != '>'), rest.dropWhile (fun c => c != '>') with
    | [], _ => none
    | _ :: _, '>' :: rest2 => some ([], rest2)
    | _, _ => none
  | _ => none

/-- Consumes `https?:\/\/`, returning the consumed characters and the rest. -/
def matchScheme : List Char → Option (List Char × List Char)
  | 'h' :: 't' :: 't' :: 'p' :: 's' :: ':' :: '/' :: '/' :: r =>
    some (['h', 't', 't', 'p', 's', ':', '/', '/'], r)
  | 'h' :: 't' :: 't' :: 'p' :: ':' :: '/' :: '/' :: r =>
    some (['h', 't', 't', 'p', ':', '/', '/'], r)
  | _ => none

/-- Matcher for `<https?:\/\/[^>|]+?\|([^>]+)>` with replacement `\1`. -/
def matchLinkLabel : List Char → Option (List Char × List Char)
  | '<' :: rest0 =>
    match matchScheme rest0 with
    | none => none
    | some (_, r1) =>
      match r1.takeWhile (fun c => c != '>' && c != '|'),
          r1.dropWhile (fun c => c != '>' && c != '|') with
      | [], _ => none
      | _ :: _, '|' :: r3 =>
        match r3.takeWhile (fun c => c != '>'), r3.dropWhile (fun c => c != '>') with
        | [], _ => none
        | label :: labels, '>' :: r5 => some (label :: labels, r5)
        | _, _ => none
      | _, _ => none
  | _ => none

/-- Matcher for `<(https?:\/\/[^>]+)>` with replacement `\1`. -/
def matchBareLink : List Char → Option (List Char × List Char)
  | '<' :: rest0 =>
    match matchScheme rest0 with
    | none => none
    | some (scheme, r1) =>
      match r1.takeWhile (fun c => c != '>'), r1.dropWhile (fun c => c != '>') with
      | [], _ => none
      | body :: bodys, '>' :: r3 => some (scheme ++ body :: bodys, r3)
      | _, _ => none
  | _ => none

/-- Matcher for `\s{2,}` with replacement a single space (greedy: the match
covers the whole whitespace run). -/
def matchWsRun : List Char → Option (List Char × List Char)
  | c1 :: c2 :: rest =>
    if isPyWhitespace c1 && isPyWhitespace c2 then
      some ([' '], (c2 :: rest).dropWhile isPyWhitespace)
    else none
  | _ => none

/-- The `re.sub` scan for one pattern, fuelled by the input length (every
match consumes at least one character, so `l.length` fuel always suffices). -/
def runSubFuel (m : List Char → Option (List Char × List Char)) :
    Nat → List Char → List Char
  | 0, l => l
  | _ + 1, [] => []
  | fuel + 1, c :: cs =>
    match m (c :: cs) with
    | some (rep, rest) => rep ++ runSubFuel m fuel rest
    | none => c :: runSubFuel m fuel cs

def runSub (m : List Char → Option (List Char × List Char)) (l : List Char) : List Char :=
  runSubFuel m l.length l

/-- Python `str.strip()` on ASCII text. -/
def pyStrip (l : List Char) : List Char :=
  ((l.dropWhile isPyWhitespace).reverse.dropWhile isPyWhitespace).reverse

/-- `AppMentionEvent._sanitize_command_text` (app_mention_event.py 60-93);
the argument is the text-or-None value the caller passes in. -/
def AppMentionEvent.sanitize_command_text (text : Option String) : String :=
  match text with
  | none => ""
  | some s =>
    String.mk (pyStrip (runSub matchWsRun (runSub matchBareLink
      (runSub matchLinkLabel (runSub matchUserMention s.data)))))

/-- `AppMentionEvent.infer_subtype` (app_mention_event.py 95-122):
`(text.split(' ', maxsplit=1) + [None])[:2]` applied to the sanitized text
of the event. -/
def AppMentionEvent.infer_subtype (text : Option String) : String × Option String :=
  let t := AppMentionEvent.sanitize_command_text text
  let split := splitFirstSpace t.data
  (String.mk split.1, split.2.map String.mk)

/-! ## Transfer engine: filename generation and markup (reaction_sync_event.py)

`pathName`, `pathStem` and `pathSuffix` embed `pathlib.PurePath.name`,
`.stem` and `.suffix` for the plain (non-directory) filenames that reach
`process_jira_upload`: `name` is the part after the last `/`; the suffix is
the part of `name` from its last dot, unless that dot is the first or the
last character of `name`, in which case the suffix is empty and the stem is
the whole name.
-/

def pathName (s : String) : String :=
  String.mk ((s.data.reverse.takeWhile (fun c => c != '/')).reverse)

/-- Splits a reversed name at its first `.` (= the last dot of the name):
returns the characters after the last dot (reversed) and, when a dot exists,
the characters before it (reversed). -/
def splitLastDotRev : List Char → List Char × Option (List Char)
  | [] => ([], none)
  | c :: cs =>
    if c = '.' then ([], some cs)
    else
      let r := splitLastDotRev cs
      (c :: r.1, r.2)

/-- `(stem, suffix)` of a path, per CPython's
`i = name.rfind('.'); 0 < i < len(name) - 1`. -/
def pathSplit (s : String) : String × String :=
  let name := (pathName s).data
  match splitLastDotRev name.reverse with
  | (_, none) => (String.mk name, "")
  | (afterR, some preR) =>
    if afterR = [] then (String.mk name, "")
    else if preR = [] then (String.mk name, "")
    else (String.mk preR.reverse, String.mk ('.' :: afterR.reverse))

def pathStem (s : String) : String := (pathSplit s).1

def pathSuffix (s : String) : String := (pathSplit s).2

/-- `AsyncSlackToJiraTransfer.__init__` (reaction_sync_event.py 107-111): the
per-job filename suffix `{channel_id}-{message_ts}-{formatted_ts}`. -/
def filename_suffix (channel_id message_ts formatted_ts : String) : String :=
  channel_id ++ "-" ++ message_ts ++ "-" ++ formatted_ts

/-- The `new_filename` computed by `AsyncSlackToJiraTransfer.process_jira_upload`
(reaction_sync_event.py 200-203):
`{filename_path.name}-{file_id}-{self.filename_suffix}{filename_path.suffix}`. -/
def new_filename (channel_id message_ts formatted_ts filename : String) (file_id : Nat) : String :=
  pathName filename ++ "-" ++ toString file_id ++ "-" ++
    filename_suffix channel_id message_ts formatted_ts ++ pathSuffix filename

/-- Modelled from the spec (§4.4 file naming), for comparison with
`new_filename`: `{original-stem}-{fileIndex}-{channelId}-{messageId}-{creationTimestamp}{original-extension}`. -/
def spec_new_filename (channel_id message_ts formatted_ts filename : String) (file_id : Nat) : String :=
  pathStem filename ++ "-" ++ toString file_id ++ "-" ++
    channel_id ++ "-" ++ message_ts ++ "-" ++ formatted_ts ++ pathSuffix filename

/-- Python `str.endswith`: the argument is a suffix of the string. -/
def py_endswith (s e : String) : Bool :=
  e.data.isSuffixOf s.data

def IMAGE_EXTENSIONS : List String := [".png", ".jpg", ".jpeg", ".gif"]

/-- `AsyncSlackToJiraTransfer.filename_to_jira_markup` (reaction_sync_event.py
113-135): `filename.endswith(IMAGE_EXTENSIONS)` selects the inline-thumbnail
markup, anything else the attachment-link markup. -/
def filename_to_jira_markup (filename : String) : String :=
  if IMAGE_EXTENSIONS.any (fun ext => py_endswith filename ext) then
    "!" ++ filename ++ "|thumbnail!"
  else
    "[^" ++ filename ++ "]"

/-! ## Transfer engine: per-upload result collection (reaction_sync_event.py 350-355)

`download_and_process_file` ends with
`await asyncio.gather(*upload_tasks, return_exceptions=True)`; each element
of the result list is the task's return value (a markup string), an
`Exception` instance the task raised, or — for a task that was cancelled
(chunk-enqueue timeout at line 332, or download failure at line 338) — a
`CancelledError` instance, which since Python 3.8 subclasses `BaseException`
but not `Exception`.  (`type(None)` is checked by the source, so the Python
`None` object is also represented.)  The comprehension at lines 352-355 maps
each element through
`result if not isinstance(result, (Exception, type(None))) else ''`.
-/

inductive TaskOutcome
  | value (s : String)
  | exn
  | cancelledError
  | noneObj
deriving DecidableEq, Repr

/-- `isinstance(result, (Exception, type(None)))`: true for `Exception`
instances and `None`; false for strings and for `CancelledError` (a
`BaseException` that is not an `Exception`). -/
def isinstance_Exception_or_NoneType : TaskOutcome → Bool
  | .exn => true
  | .noneObj => true
  | .value _ => false
  | .cancelledError => false

/-- The comprehension of reaction_sync_event.py 352-355, collecting the
gathered upload-task outcomes of one file. -/
def collect_upload_results (results : List TaskOutcome) : List TaskOutcome :=
  results.map fun r =>
    if !isinstance_Exception_or_NoneType r then r else .value ""

/-! ## Store well-formedness

Invariants DynamoDB itself guarantees for table contents: an item's key
attributes agree with the key it is stored under, and an item, being a
map, binds each attribute name once.
-/

def item_wf (k : DKey) (it : Dict) : Prop :=
  (it.map Prod.fst).Nodup ∧
    pyGet it "jira_issue_id" = some k.jira_issue_id ∧
    pyGet it "slack_thread_id" = some k.slack_thread_id

def store_wf (store : Store) : Prop := ∀ e ∈ store, item_wf e.1 e.2

/-! ## Derived views of the register workflow inputs -/

/-- The issue id parsed by the register workflow: the text before the first
space of the sanitized arguments. -/
def register_issue_id (t : String) : String := String.mk (splitFirstSpace t.data).1

/-- The optional free-text argument of the register workflow. -/
def register_optional_param (t : String) : Option String :=
  ((splitFirstSpace t.data).2).map String.mk

/-- `link_text = optional_param or self.thread_ts`. -/
def register_link_text (t thread_ts : String) : String :=
  if pyTruthy (register_optional_param t) then (register_optional_param t).getD "" else thread_ts

def register_key (t thread_ts channel_id : String) : DKey :=
  ⟨register_issue_id t, get_thread_id thread_ts channel_id⟩

def register_key_dict (t thread_ts channel_id : String) : Dict :=
  [("jira_issue_id", register_issue_id t), ("slack_thread_id", get_thread_id thread_ts channel_id)]

def register_existing (store : Store) (t thread_ts channel_id : String) : Dict :=
  (DynamoDbWrapper.get_item store (register_key t thread_ts channel_id)).getD []

/-! ## Helper lemmas: dicts -/

theorem pyGet_none (l : Dict) (k : String) (h : ∀ kv ∈ l, kv.1 ≠ k) :
    pyGet l k = none := by
  induction l with
  | nil => rfl
  | cons kv rest ih =>
    have h1 : kv.1 ≠ k := h kv (by simp)
    simp [pyGet, h1, ih fun x hx => h x (by simp [hx])]

theorem lastVal?_none (l : List (String × String)) (k : String) (h : ∀ kv ∈ l, kv.1 ≠ k) :
    lastVal? l k = none := by
  induction l with
  | nil => rfl
  | cons kv rest ih =>
    have h1 : kv.1 ≠ k := h kv (by simp)
    simp [lastVal?, h1, ih fun x hx => h x (by simp [hx])]

theorem pyGet_pySet (d : Dict) (k v k2 : String) :
    pyGet (pySet d k v) k2 = if k2 = k then some v else pyGet d k2 := by
  induction d with
  | nil =>
    by_cases h : k2 = k
    · subst h; simp [pySet, pyGet]
    · simp [pySet, pyGet, h, Ne.symm h]
  | cons kv rest ih =>
    by_cases h1 : kv.1 = k
    · by_cases h : k2 = k
      · subst h; simp [pySet, pyGet, h1]
      · simp [pySet, pyGet, h1, h, Ne.symm h]
    · by_cases h : k2 = k
      · subst h; simp [pySet, pyGet, h1, ih]
      · simp [pySet, pyGet, h1, h, ih]

theorem lastVal?_append (l1 l2 : List (String × String)) (k : String) :
    lastVal? (l1 ++ l2) k =
      match lastVal? l2 k with
      | some v => some v
      | none => lastVal? l1 k := by
  induction l1 with
  | nil => simp [lastVal?]; cases lastVal? l2 k <;> rfl
  | cons kv rest ih =>
    have hstep : lastVal? ((kv :: rest) ++ l2) k =
        match lastVal? (rest ++ l2) k with
        | some v => some v
        | none => if kv.1 = k then some kv.2 else none := rfl
    have hstep2 : lastVal? (kv :: rest) k =
        match lastVal? rest k with
        | some v => some v
        | none => if kv.1 = k then some kv.2 else none := rfl
    rw [hstep, ih, hstep2]
    cases lastVal? l2 k <;> cases lastVal? rest k <;> rfl

theorem lastVal?_eq_pyGet (l : List (String × String)) (h : (l.map Prod.fst).Nodup)
    (k : String) : lastVal? l k = pyGet l k := by
  induction l with
  | nil => rfl
  | cons kv rest ih =>
    rw [List.map_cons, List.nodup_cons] at h
    obtain ⟨hnk, hnd⟩ := h
    by_cases hk : kv.1 = k
    · have hrest : lastVal? rest k = none := by
        refine lastVal?_none rest k fun x hx hx1 => hnk ?_
        rw [← hk, ← hx1] at *
        exact List.mem_map_of_mem Prod.fst hx
      simp [lastVal?, pyGet, hrest, hk]
    · simp only [lastVal?, pyGet, ih hnd, hk, if_false]
      cases pyGet rest k <;> simp

theorem foldl_pySet_pyGet (l : List (String × String)) :
    ∀ (d : Dict) (k : String),
      pyGet (l.foldl (fun acc kv => pySet acc kv.1 kv.2) d) k =
        match lastVal? l k with
        | some v => some v
        | none => pyGet d k := by
  induction l with
  | nil => intro d k; rfl
  | cons kv rest ih =>
    intro d k
    rw [List.foldl_cons, ih]
    by_cases hk : kv.1 = k
    · cases h : lastVal? rest k <;> simp [lastVal?, h, hk, pyGet_pySet]
    · cases h : lastVal? rest k <;> simp [lastVal?, h, hk, Ne.symm hk, pyGet_pySet]

theorem pyGet_pyDictOf (l : List (String × String)) (k : String) :
    pyGet (pyDictOf l) k = lastVal? l k := by
  rw [pyDictOf, foldl_pySet_pyGet]
  cases lastVal? l k <;> rfl

/-- The attribute lookup of the item written back by the register workflow:
`created_at` and `jira_link_id` are set last and win; every other attribute
comes from the fetched item when it binds it at all (last binding wins),
else from the key dict. -/
theorem pyGet_register_item (env : RegEnv) (kd ex : Dict) (lid k : String) :
    pyGet (register_item env kd ex lid) k =
      if "jira_link_id" = k then some lid
      else if "created_at" = k then some env.now
      else
        match lastVal? ex k with
        | some v => some v
        | none => lastVal? kd k := by
  rw [register_item, pyGet_pyDictOf, lastVal?_append, lastVal?_append]
  by_cases h1 : "jira_link_id" = k
  · simp [lastVal?, h1]
  · by_cases h2 : "created_at" = k
    · simp [lastVal?, h1, h2]
    · simp [lastVal?, h1, h2]

/-! ## Helper lemmas: store operations -/

theorem countKey_append (a b : Store) (k : DKey) :
    countKey (a ++ b) k = countKey a k + countKey b k := by
  simp [countKey, List.filter_append]

theorem countKey_delete_item (s : Store) (k : DKey) :
    countKey (DynamoDbWrapper.delete_item s k) k = 0 := by
  induction s with
  | nil => rfl
  | cons e rest ih =>
    by_cases h : e.1 = k
    · simpa [DynamoDbWrapper.delete_item, List.filter_cons, h] using ih
    · simpa [DynamoDbWrapper.delete_item, countKey, List.filter_cons, h] using ih

theorem entriesFor_delete_item_ne (s : Store) (k k2 : DKey) (h : k2 ≠ k) :
    entriesFor (DynamoDbWrapper.delete_item s k) k2 = entriesFor s k2 := by
  rw [entriesFor, entriesFor, DynamoDbWrapper.delete_item, List.filter_filter]
  refine List.filter_congr fun e he => ?_
  by_cases h2 : e.1 = k2
  · have hk : ¬(e.1 = k) := fun hc => h (h2.symm.trans hc)
    simp [h2, hk, h]
  · simp [h2]

theorem storeLookup_delete_append (s : Store) (k : DKey) (it : Dict) :
    storeLookup (DynamoDbWrapper.delete_item s k ++ [(k, it)]) k = some it := by
  induction s with
  | nil => simp [storeLookup, DynamoDbWrapper.delete_item]
  | cons e rest ih =>
    by_cases he : e.1 = k
    · simpa [DynamoDbWrapper.delete_item, List.filter_cons, he] using ih
    · simpa [DynamoDbWrapper.delete_item, List.filter_cons, he, storeLookup] using ih

theorem storeLookup_delete_append_ne (s : Store) (k k2 : DKey) (it : Dict) (h : k2 ≠ k) :
    storeLookup (DynamoDbWrapper.delete_item s k ++ [(k, it)]) k2 = storeLookup s k2 := by
  have hkk : ¬(k = k2) := fun hcon => h hcon.symm
  induction s with
  | nil => simp [storeLookup, DynamoDbWrapper.delete_item, hkk]
  | cons e rest ih =>
    by_cases he : e.1 = k
    · have hne : ¬(e.1 = k2) := fun hcon => h (hcon.symm.trans he)
      simpa [DynamoDbWrapper.delete_item, List.filter_cons, he, storeLookup, hne, hkk] using ih
    · by_cases he2 : e.1 = k2 <;>
        simpa [DynamoDbWrapper.delete_item, List.filter_cons, he, storeLookup, he2, h] using ih

/-! ## Helper lemmas: splitting -/

theorem splitAllSpace_no_space (l : List Char) (h : ∀ c ∈ l, c ≠ ' ') :
    splitAllSpace l = [l] := by
  induction l with
  | nil => rfl
  | cons c cs ih =>
    have hc : c ≠ ' ' := h c (by simp)
    simp [splitAllSpace, ih fun x hx => h x (by simp [hx]), hc]

theorem splitFirstSpace_eq (l : List Char) :
    splitFirstSpace l =
      (l.takeWhile (fun c => c != ' '),
        match l.dropWhile (fun c => c != ' ') with
        | [] => none
        | _ :: r => some r) := by
  induction l with
  | nil => rfl
  | cons c cs ih =>
    by_cases h : c = ' '
    · simp [splitFirstSpace, h, List.takeWhile_cons, List.dropWhile_cons]
    · simp [splitFirstSpace, h, List.takeWhile_cons, List.dropWhile_cons, ih]

/-! ## Helper lemmas: path splitting -/

theorem splitLastDotRev_none (l : List Char) (h : (splitLastDotRev l).2 = none) :
    (splitLastDotRev l).1 = l := by
  induction l with
  | nil => rfl
  | cons c cs ih =>
    by_cases hc : c = '.'
    · simp [splitLastDotRev, hc] at h
    · simp only [splitLastDotRev, hc, if_false] at h ⊢
      simp [ih h]

theorem splitLastDotRev_some (l p : List Char) (h : (splitLastDotRev l).2 = some p) :
    l = (splitLastDotRev l).1 ++ '.' :: p := by
  induction l with
  | nil => exact absurd h (by simp [splitLastDotRev])
  | cons c cs ih =>
    by_cases hc : c = '.'
    · subst hc
      have hval : splitLastDotRev ('.' :: cs) = ([], some cs) := by
        simp [splitLastDotRev]
      rw [hval] at h ⊢
      have h2 : cs = p := Option.some.inj h
      simp [h2]
    · have hval : splitLastDotRev (c :: cs) =
          (c :: (splitLastDotRev cs).1, (splitLastDotRev cs).2) := by
        simp [splitLastDotRev, hc]
      rw [hval] at h ⊢
      simpa using congrArg (List.cons c) (ih h)

theorem mk_append (a b : List Char) : String.mk a ++ String.mk b = String.mk (a ++ b) := rfl

theorem pathStem_append_pathSuffix (s : String) :
    pathStem s ++ pathSuffix s = pathName s := by
  have heta : String.mk (pathName s).data = pathName s := rfl
  rw [pathStem, pathSuffix, pathSplit]
  cases hsp : splitLastDotRev (pathName s).data.reverse with
  | mk afterR o =>
    cases o with
    | none => simpa using heta
    | some preR =>
      by_cases ha : afterR = []
      · simp only [ha, if_pos rfl]
        simpa using heta
      · by_cases hp : preR = []
        · simp only [ha, hp, if_neg ha, if_pos rfl]
          simpa using heta
        · simp only [if_neg ha, if_neg hp]
          have hdec := splitLastDotRev_some (pathName s).data.reverse preR (by rw [hsp])
          rw [hsp] at hdec
          have hname : (pathName s).data = preR.reverse ++ '.' :: afterR.reverse := by
            have := congrArg List.reverse hdec
            simpa [List.reverse_append] using this
          rw [mk_append, ← heta, hname]

/-! ## Helper lemmas: the register workflow -/

theorem storeLookup_mem (s : Store) (k : DKey) (it : Dict)
    (h : storeLookup s k = some it) : (k, it) ∈ s := by
  induction s with
  | nil => simp [storeLookup] at h
  | cons e rest ih =>
    by_cases he : e.1 = k
    · rw [storeLookup, if_pos he] at h
      have h2 : e.2 = it := Option.some.inj h
      have : e = (k, it) := Prod.ext he h2
      simp [this]
    · rw [storeLookup, if_neg he] at h
      exact List.mem_cons_of_mem e (ih h)

theorem entriesFor_append (a b : Store) (k : DKey) :
    entriesFor (a ++ b) k = entriesFor a k ++ entriesFor b k := by
  simp [entriesFor, List.filter_append]

theorem entriesFor_singleton_ne (e : DKey × Dict) (k : DKey) (h : ¬(e.1 = k)) :
    entriesFor [e] k = [] := by
  simp [entriesFor, List.filter_cons, h]

theorem countKey_singleton (e : DKey × Dict) (k : DKey) (h : e.1 = k) :
    countKey [e] k = 1 := by
  simp [countKey, List.filter_cons, h]

/-- The item the register workflow writes back carries the workflow's own key
attributes, the chosen link id, and the fresh timestamp. -/
theorem register_item_attrs (env : RegEnv) (t thread_ts channel_id : String) (store : Store)
    (hwf : store_wf store) (lid : String) :
    pyGet (register_item env (register_key_dict t thread_ts channel_id)
        (register_existing store t thread_ts channel_id) lid) "jira_issue_id" =
      some (register_issue_id t) ∧
    pyGet (register_item env (register_key_dict t thread_ts channel_id)
        (register_existing store t thread_ts channel_id) lid) "slack_thread_id" =
      some (get_thread_id thread_ts channel_id) ∧
    pyGet (register_item env (register_key_dict t thread_ts channel_id)
        (register_existing store t thread_ts channel_id) lid) "jira_link_id" = some lid ∧
    pyGet (register_item env (register_key_dict t thread_ts channel_id)
        (register_existing store t thread_ts channel_id) lid) "created_at" = some env.now := by
  have hkd_ji : lastVal? (register_key_dict t thread_ts channel_id) "jira_issue_id" =
      some (register_issue_id t) := by
    simp [register_key_dict, lastVal?]
  have hkd_st : lastVal? (register_key_dict t thread_ts channel_id) "slack_thread_id" =
      some (get_thread_id thread_ts channel_id) := by
    simp [register_key_dict, lastVal?]
  have hex : lastVal? (register_existing store t thread_ts channel_id) "jira_issue_id" =
        some (register_issue_id t) ∨
      lastVal? (register_existing store t thread_ts channel_id) "jira_issue_id" = none := by
    rw [register_existing, DynamoDbWrapper.get_item, Option.getD_some]
    cases hlook : storeLookup store (register_key t thread_ts channel_id) with
    | none => right; rfl
    | some it =>
      left
      have hmem := storeLookup_mem store _ it hlook
      obtain ⟨hnd, hji, _⟩ := hwf _ hmem
      rw [Option.getD_some, lastVal?_eq_pyGet it hnd, hji]
      simp [register_key]
  have hex_st : lastVal? (register_existing store t thread_ts channel_id) "slack_thread_id" =
        some (get_thread_id thread_ts channel_id) ∨
      lastVal? (register_existing store t thread_ts channel_id) "slack_thread_id" = none := by
    rw [register_existing, DynamoDbWrapper.get_item, Option.getD_some]
    cases hlook : storeLookup store (register_key t thread_ts channel_id) with
    | none => right; rfl
    | some it =>
      left
      have hmem := storeLookup_mem store _ it hlook
      obtain ⟨hnd, _, hst⟩ := hwf _ hmem
      rw [Option.getD_some, lastVal?_eq_pyGet it hnd, hst]
      simp [register_key]
  refine ⟨?_, ?_, ?_, ?_⟩
  · rw [pyGet_register_item]
    rcases hex with hx | hx <;> simp [hx, hkd_ji]
  · rw [pyGet_register_item]
    rcases hex_st with hx | hx <;> simp [hx, hkd_st]
  · rw [pyGet_register_item]
    simp
  · rw [pyGet_register_item]
    simp

/-- The register workflow, on a non-empty command, runs to completion and is
the link-validation conditional of the source: update the still-valid link
and keep its id, or create a fresh link; either way overwrite the stored
record with the rebuilt item. -/
theorem register_process_eq (env : RegEnv) (t thread_ts channel_id : String) (store : Store)
    (htxt : t ≠ "") :
    AppMentionRegisterEvent.process_event true true env t thread_ts channel_id store =
      (if register_existing_valid env (register_issue_id t)
          (register_existing store t thread_ts channel_id) then
        ⟨none,
          DynamoDbWrapper.put_item store
            (register_item env (register_key_dict t thread_ts channel_id)
              (register_existing store t thread_ts channel_id)
              ((pyGet (register_existing store t thread_ts channel_id) "jira_link_id").getD "")),
          [JiraCall.update_link (register_issue_id t)
            ((pyGet (register_existing store t thread_ts channel_id) "jira_link_id").getD "")
            env.thread_link
            (AppMentionRegisterEvent.get_link_title env.app_name env.channel_name
              (register_link_text t thread_ts))]⟩
      else
        ⟨none,
          DynamoDbWrapper.put_item store
            (register_item env (register_key_dict t thread_ts channel_id)
              (register_existing store t thread_ts channel_id) env.new_link_id),
          [JiraCall.add_link (register_issue_id t) env.thread_link
            (AppMentionRegisterEvent.get_link_title env.app_name env.channel_name
              (register_link_text t thread_ts))
            env.icon_url env.icon_title]⟩) := by
  cases ho : (splitFirstSpace t.data).2 with
  | none =>
    simp [AppMentionRegisterEvent.process_event, htxt, register_issue_id, register_key,
      register_key_dict, register_existing, register_link_text, register_optional_param,
      get_thread_id, ho, pyTruthy, Nat.lt_one_iff]
  | some r =>
    simp [AppMentionRegisterEvent.process_event, htxt, register_issue_id, register_key,
      register_key_dict, register_existing, register_link_text, register_optional_param,
      get_thread_id, ho, pyTruthy, Nat.lt_one_iff]

/-! ## Claim C1 -/

/-- C1 (amended): for every workflow run via Event.handle_event, with the
indicator operations themselves succeeding (their failures are governed by
the separate best-effort rule): if the body completes without exception,
prior bot reactions are cleared and a success indicator is added to the
source message; if it raises NotHandledException, the run logs, clears any
prior bot reactions, and adds no indicator; on any other exception a failure
indicator is added to the source message and the exception is re-raised
unless it is an IgnorableException (business-rule-expected), in which case
it is not re-raised. -/
theorem C1_handle_event_amended (success_reaction error_reaction : String) (msg : SlackMsg) :
    handle_event cleanAckEnv success_reaction error_reaction none msg =
      (⟨[success_reaction]⟩, none) ∧
    handle_event cleanAckEnv success_reaction error_reaction (some Exc.notHandledExc) msg =
      (⟨[]⟩, none) ∧
    (∀ tag : IgnTag,
      handle_event cleanAckEnv success_reaction error_reaction (some (Exc.ignorableExc tag)) msg =
        (⟨[error_reaction]⟩, none)) ∧
    handle_event cleanAckEnv success_reaction error_reaction (some Exc.clientExc) msg =
      (⟨[error_reaction]⟩, some Exc.clientExc) ∧
    handle_event cleanAckEnv success_reaction error_reaction (some Exc.otherExc) msg =
      (⟨[error_reaction]⟩, some Exc.otherExc) :=
  ⟨rfl, rfl, fun _ => rfl, rfl, rfl⟩

/-- C1 (counterexample to the claim as stated): on NotHandledException the
run is claimed to take no visible action, but when a prior bot reaction is
present the acknowledgment wrapper removes it, visibly changing the source
message. -/
theorem C1_counterexample :
    handle_event cleanAckEnv "white_check_mark" "x" (some Exc.notHandledExc)
      ⟨["white_check_mark"]⟩ = (⟨[]⟩, none) ∧
    SlackMsg.mk [] ≠ SlackMsg.mk ["white_check_mark"] :=
  ⟨rfl, by decide⟩

/-! ## Claim C6 -/

/-- C6 (amended): a ClientException raised while clearing prior indicators
or adding the new one is logged and swallowed — no ClientException escapes
the acknowledgment wrapper to the caller; exceptions of other classes do
escape it. -/
theorem C6_acknowledge_swallow_amended (env : AckEnv) (reaction : String) (msg : SlackMsg)
    (hrm : ∀ e, env.remove_exc = some e → e.is_client_exception = true)
    (had : ∀ e, env.add_exc = some e → e.is_client_exception = true) :
    (acknowledge_event_success env reaction msg).2 = none ∧
    (acknowledge_event_error env reaction msg).2 = none ∧
    (acknowledge_event_not_handled env msg).2 = none := by
  obtain ⟨re, ae⟩ := env
  refine ⟨?_, ?_, ?_⟩ <;>
  · cases re with
    | some e =>
      have hc := hrm e rfl
      simp [acknowledge_event_success, acknowledge_event_error,
        acknowledge_event_not_handled, acknowledge_prepare, remove_bot_reactions,
        add_reaction, hc]
    | none =>
      cases ae with
      | some e =>
        have hc := had e rfl
        simp [acknowledge_event_success, acknowledge_event_error,
          acknowledge_event_not_handled, acknowledge_prepare, remove_bot_reactions,
          add_reaction, hc]
      | none =>
        simp [acknowledge_event_success, acknowledge_event_error,
          acknowledge_event_not_handled, acknowledge_prepare, remove_bot_reactions,
          add_reaction]

/-- C6 (counterexample to the claim as stated): a failure during indicator
manipulation that is not a ClientException — here, raised while clearing
prior indicators — escapes the acknowledgment wrapper to the caller. -/
theorem C6_counterexample :
    acknowledge_event_success ⟨some Exc.otherExc, none⟩ "white_check_mark" ⟨[]⟩ =
      (⟨[]⟩, some Exc.otherExc) ∧
    some Exc.otherExc ≠ (none : Option Exc) :=
  ⟨rfl, by decide⟩

/-- C6 (witness). -/
theorem C6_witness :
    (acknowledge_event_success ⟨some Exc.clientExc, some Exc.clientExc⟩ "white_check_mark"
        ⟨["x"]⟩).2 = none ∧
    (acknowledge_event_error ⟨some Exc.clientExc, some Exc.clientExc⟩ "x" ⟨["x"]⟩).2 = none ∧
    (acknowledge_event_not_handled ⟨some Exc.clientExc, some Exc.clientExc⟩ ⟨["x"]⟩).2 = none := by
  have h1 := (C6_acknowledge_swallow_amended ⟨some Exc.clientExc, some Exc.clientExc⟩
    "white_check_mark" ⟨["x"]⟩ (fun e he => by cases he; rfl) (fun e he => by cases he; rfl)).1
  have h2 := (C6_acknowledge_swallow_amended ⟨some Exc.clientExc, some Exc.clientExc⟩
    "x" ⟨["x"]⟩ (fun e he => by cases he; rfl) (fun e he => by cases he; rfl))
  exact ⟨h1, h2.2.1, h2.2.2⟩

/-! ## Claim C2 -/

/-- C2 (code bug): the per-file collection of upload-task outcomes maps a
task that raised an Exception — and the None object — to the empty string,
but leaves the CancelledError of a cancelled upload task in the result list
unchanged, because CancelledError is not an instance of Exception (Python
3.8+); the cancelled (file, target) pair therefore does not degrade to an
empty markup string as claimed (and as the function's own docstring and
List[str] annotation require). -/
theorem C2_cancelled_upload_result :
    collect_upload_results
        [TaskOutcome.value "!a.png|thumbnail!", TaskOutcome.exn, TaskOutcome.cancelledError,
          TaskOutcome.noneObj] =
      [TaskOutcome.value "!a.png|thumbnail!", TaskOutcome.value "",
        TaskOutcome.cancelledError, TaskOutcome.value ""] ∧
    TaskOutcome.cancelledError ≠ TaskOutcome.value "" :=
  ⟨rfl, by decide⟩

/-! ## Claim C5 -/

/-- C5 (counterexample to the claim as stated): the generated upload filename
keeps the full original name — extension included — in front of the
uniquifying suffix (`filename_path.name`, not the stem), so it differs from
the claimed stem-based form and the extension appears twice. -/
theorem C5_counterexample :
    new_filename "C1" "123" "TS" "report.pdf" 0 = "report.pdf-0-C1-123-TS.pdf" ∧
    spec_new_filename "C1" "123" "TS" "report.pdf" 0 = "report-0-C1-123-TS.pdf" ∧
    new_filename "C1" "123" "TS" "report.pdf" 0 ≠
      spec_new_filename "C1" "123" "TS" "report.pdf" 0 :=
  ⟨by decide, by decide, by decide⟩

/-- C5 (amended): the new filename given to the upload equals the original
filename's stem followed by its extension (i.e. the full original name),
then "-", the file index, "-", the channel id, "-", the message id, "-",
the job-creation timestamp, and finally the original extension once more —
for filenames with an extension, the extension appears twice, not exactly
once at the end. -/
theorem C5_new_filename_amended (channel_id message_ts formatted_ts filename : String)
    (file_id : Nat) :
    new_filename channel_id message_ts formatted_ts filename file_id =
      pathStem filename ++ pathSuffix filename ++ "-" ++ toString file_id ++ "-" ++
        channel_id ++ "-" ++ message_ts ++ "-" ++ formatted_ts ++ pathSuffix filename := by
  simp only [new_filename, filename_suffix]
  rw [← pathStem_append_pathSuffix]
  simp [String.append_assoc]

/-! ## Claim C7 -/

/-- C7 (amended): for the mention kind, infer_subtype first sanitizes the
text (user-mention tokens removed, "<url|label>" rewritten to label,
"<url>" rewritten to the raw url, repeated whitespace collapsed, result
trimmed) and returns the first space-delimited token — the delimiter being
the single space character, not arbitrary whitespace — as the command, with
the remainder as args (None when there is no remainder); in particular
"<@U123> register PROJ-1 extra text" yields ("register", "PROJ-1 extra
text"), "<@U123>" yields ("", None), and sanitization maps
"<@U1> <@U2> register PROJ-1" to "register PROJ-1", "<https://x|PROJ-1>"
to "PROJ-1", and "<https://x>" to "https://x". -/
theorem C7_infer_subtype_amended :
    (∀ text : String,
      AppMentionEvent.infer_subtype (some text) =
        (String.mk ((AppMentionEvent.sanitize_command_text (some text)).data.takeWhile
            (fun c => c != ' ')),
          (match (AppMentionEvent.sanitize_command_text (some text)).data.dropWhile
              (fun c => c != ' ') with
            | [] => none
            | _ :: r => some r).map String.mk)) ∧
    AppMentionEvent.infer_subtype (some "<@U123> register PROJ-1 extra text") =
      ("register", some "PROJ-1 extra text") ∧
    AppMentionEvent.infer_subtype (some "<@U123>") = ("", none) ∧
    AppMentionEvent.sanitize_command_text (some "<@U1> <@U2> register PROJ-1") =
      "register PROJ-1" ∧
    AppMentionEvent.sanitize_command_text (some "<https://x|PROJ-1>") = "PROJ-1" ∧
    AppMentionEvent.sanitize_command_text (some "<https://x>") = "https://x" := by
  refine ⟨fun text => ?_, by decide, by decide, by decide, by decide, by decide⟩
  simp only [AppMentionEvent.infer_subtype, splitFirstSpace_eq]

/-- C7 (counterexample to the claim as stated): the split is on the single
space character, not on whitespace: a lone tab — whitespace that survives
sanitization — is not treated as a delimiter, so the whole sanitized text
becomes the command and args is None, where the claim predicts
("register", "PROJ-1"). -/
theorem C7_counterexample :
    isPyWhitespace '\t' = true ∧
    AppMentionEvent.infer_subtype (some "register\tPROJ-1") = ("register\tPROJ-1", none) ∧
    (("register\tPROJ-1", none) : String × Option String) ≠ ("register", some "PROJ-1") :=
  ⟨rfl, by decide, by decide⟩

/-! ## Claim C8 -/

/-- C8: the filename-to-markup mapping is a pure function of the filename
alone: a filename ending in one of the fixed image extensions yields the
inline-thumbnail marker "!<filename>|thumbnail!", and any other filename
yields the attachment-link marker "[^<filename>]"; in particular "a.png"
yields a string starting with "!" and containing "|thumbnail!", and "a.pdf"
yields a string starting with "[^" and ending with "]". -/
theorem C8_markup :
    (∀ f : String, (IMAGE_EXTENSIONS.any fun ext => py_endswith f ext) = true →
      filename_to_jira_markup f = "!" ++ f ++ "|thumbnail!") ∧
    (∀ f : String, (IMAGE_EXTENSIONS.any fun ext => py_endswith f ext) = false →
      filename_to_jira_markup f = "[^" ++ f ++ "]") ∧
    (∃ rest : String, filename_to_jira_markup "a.png" = "!" ++ rest) ∧
    (∃ a b : String, filename_to_jira_markup "a.png" = a ++ "|thumbnail!" ++ b) ∧
    (∃ rest : String, filename_to_jira_markup "a.pdf" = "[^" ++ rest) ∧
    (∃ a : String, filename_to_jira_markup "a.pdf" = a ++ "]") := by
  refine ⟨fun f h => ?_, fun f h => ?_, ⟨"a.png|thumbnail!", by decide⟩,
    ⟨"!a.png", "", by decide⟩, ⟨"a.pdf]", by decide⟩, ⟨"[^a.pdf", by decide⟩⟩
  · simp [filename_to_jira_markup, h]
  · simp [filename_to_jira_markup, h]

/-- C8 (witness). -/
theorem C8_witness :
    (IMAGE_EXTENSIONS.any fun ext => py_endswith "b.png" ext) = true ∧
    filename_to_jira_markup "b.png" = "!" ++ "b.png" ++ "|thumbnail!" ∧
    (IMAGE_EXTENSIONS.any fun ext => py_endswith "b.txt" ext) = false ∧
    filename_to_jira_markup "b.txt" = "[^" ++ "b.txt" ++ "]" :=
  ⟨by decide, C8_markup.1 "b.png" (by decide), by decide, C8_markup.2.1 "b.txt" (by decide)⟩

/-! ## Claim C3 -/

/-- C3: running the link-remove (deregister) workflow for an
(issueId, threadId) pair that has no stored Registration always raises the
business-rule-expected IgnorableException and performs no delete on the
key-value store: the store state is unchanged (and no remote-link removal
is attempted either). -/
theorem C3_deregister_missing_registration
    (issue_text thread_ts channel_id : String) (store : Store)
    (hne : issue_text ≠ "") (hns : ∀ c ∈ issue_text.data, c ≠ ' ')
    (habsent : storeLookup store ⟨issue_text, get_thread_id thread_ts channel_id⟩ = none) :
    (∃ tag, (AppMentionDeregisterEvent.process_event true true issue_text thread_ts channel_id
        store).raised = some (Exc.ignorableExc tag)) ∧
    (AppMentionDeregisterEvent.process_event true true issue_text thread_ts channel_id
        store).store = store ∧
    (AppMentionDeregisterEvent.process_event true true issue_text thread_ts channel_id
        store).removedLinks = [] := by
  have hsplit := splitAllSpace_no_space issue_text.data hns
  have heta : String.mk issue_text.data = issue_text := rfl
  refine ⟨⟨IgnTag.noJiraLinkInfo, ?_⟩, ?_, ?_⟩ <;>
    simp [AppMentionDeregisterEvent.process_event, hne, hsplit, heta,
      DynamoDbWrapper.get_item, habsent, pyTruthy, pyGet]

/-- C3 (witness). -/
theorem C3_witness :
    (∃ tag, (AppMentionDeregisterEvent.process_event true true "PROJ-9" "T1" "C1" []).raised =
      some (Exc.ignorableExc tag)) ∧
    (AppMentionDeregisterEvent.process_event true true "PROJ-9" "T1" "C1" []).store = [] ∧
    (AppMentionDeregisterEvent.process_event true true "PROJ-9" "T1" "C1" []).removedLinks = [] :=
  C3_deregister_missing_registration "PROJ-9" "T1" "C1" [] (by decide) (by decide) rfl

/-! ## Claim C9 -/

/-- C9: for every key, DynamoDbWrapper.get_item returns a dict — the stored
item, or an empty dict when no item exists — and never None; consequently
the deregister workflow's item-is-None branch (the 'not registered to
thread' IgnorableException) is unreachable for every input, and a missing
registration is always reported through the 'No jira link information'
IgnorableException instead. -/
theorem C9_get_item_total :
    (∀ (store : Store) (key : DKey), (DynamoDbWrapper.get_item store key).isSome = true) ∧
    (∀ (has_dynamo has_jira : Bool) (t thread_ts channel_id : String) (store : Store),
      (AppMentionDeregisterEvent.process_event has_dynamo has_jira t thread_ts channel_id
          store).raised ≠ some (Exc.ignorableExc IgnTag.notRegisteredToThread)) ∧
    (∀ (t thread_ts channel_id : String) (store : Store),
      t ≠ "" → (∀ c ∈ t.data, c ≠ ' ') →
      storeLookup store ⟨t, get_thread_id thread_ts channel_id⟩ = none →
      (AppMentionDeregisterEvent.process_event true true t thread_ts channel_id store).raised =
        some (Exc.ignorableExc IgnTag.noJiraLinkInfo)) := by
  refine ⟨fun store key => rfl, ?_, ?_⟩
  · intro has_dynamo has_jira t thread_ts channel_id store
    simp only [AppMentionDeregisterEvent.process_event, DynamoDbWrapper.get_item]
    repeat' split
    all_goals simp
  · intro t thread_ts channel_id store hne hns habsent
    have hsplit := splitAllSpace_no_space t.data hns
    have heta : String.mk t.data = t := rfl
    simp [AppMentionDeregisterEvent.process_event, hne, hsplit, heta,
      DynamoDbWrapper.get_item, habsent, pyTruthy, pyGet]

/-- C9 (witness). -/
theorem C9_witness :
    (DynamoDbWrapper.get_item [] ⟨"PROJ-8", "C2_T2"⟩).isSome = true ∧
    (AppMentionDeregisterEvent.process_event true true "PROJ-8" "T2" "C2" []).raised ≠
      some (Exc.ignorableExc IgnTag.notRegisteredToThread) ∧
    (AppMentionDeregisterEvent.process_event true true "PROJ-8" "T2" "C2" []).raised =
      some (Exc.ignorableExc IgnTag.noJiraLinkInfo) :=
  ⟨C9_get_item_total.1 [] ⟨"PROJ-8", "C2_T2"⟩,
   C9_get_item_total.2.1 true true "PROJ-8" "T2" "C2" [],
   C9_get_item_total.2.2 "PROJ-8" "T2" "C2" [] (by decide) (by decide) rfl⟩

/-! ## Claims C4 and C10: shared facts about the register workflow -/

theorem pyTruthy_getD (o : Option String) (h : pyTruthy o = true) : some (o.getD "") = o := by
  cases o with
  | none => simp [pyTruthy] at h
  | some s => rfl

theorem register_existing_valid_truthy (env : RegEnv) (iid : String) (ex : Dict)
    (h : register_existing_valid env iid ex = true) :
    pyTruthy (pyGet ex "jira_link_id") = true := by
  rw [register_existing_valid, Bool.and_eq_true, Bool.and_eq_true] at h
  exact h.2.1

/-- The store after a successful register run: the record under the
workflow's key is deleted and re-inserted as the rebuilt item, whose link id
is the old one when the remote link was still valid and the fresh one
otherwise. -/
theorem register_store_shape (env : RegEnv) (t thread_ts channel_id : String) (store : Store)
    (hwf : store_wf store) (htxt : t ≠ "") :
    (AppMentionRegisterEvent.process_event true true env t thread_ts channel_id store).store =
      DynamoDbWrapper.delete_item store (register_key t thread_ts channel_id) ++
        [(register_key t thread_ts channel_id,
          register_item env (register_key_dict t thread_ts channel_id)
            (register_existing store t thread_ts channel_id)
            (if register_existing_valid env (register_issue_id t)
                (register_existing store t thread_ts channel_id) then
              (pyGet (register_existing store t thread_ts channel_id) "jira_link_id").getD ""
            else env.new_link_id))] := by
  rw [register_process_eq env t thread_ts channel_id store htxt]
  by_cases hv : register_existing_valid env (register_issue_id t)
      (register_existing store t thread_ts channel_id) = true
  · obtain ⟨hji, hst, hjl, hca⟩ := register_item_attrs env t thread_ts channel_id store hwf
      ((pyGet (register_existing store t thread_ts channel_id) "jira_link_id").getD "")
    rw [if_pos hv, if_pos hv]
    dsimp only
    simp [DynamoDbWrapper.put_item, hji, hst, register_key]
  · obtain ⟨hji, hst, hjl, hca⟩ := register_item_attrs env t thread_ts channel_id store hwf
      env.new_link_id
    rw [if_neg hv, if_neg hv]
    dsimp only
    simp [DynamoDbWrapper.put_item, hji, hst, register_key]

/-! ## Claim C4 -/

/-- C4: for every run of the link-create (register) workflow on an
(issueId, threadId) key (well-formed store, non-empty command): the run
completes, a stored record for that key is at most one — exactly one — and
is overwritten in place, records under other keys are untouched; if a
record exists and its remote link is still valid, the only jira call is an
update of the link (title) under the same link id and the stored linkId is
left unchanged; if the record is absent, or exists with a missing or
invalid remote link, a new remote link is created and the record is
overwritten with the new linkId. -/
theorem C4_register_link_management
    (env : RegEnv) (t thread_ts channel_id : String) (store : Store)
    (hwf : store_wf store) (htxt : t ≠ "") :
    (AppMentionRegisterEvent.process_event true true env t thread_ts channel_id store).raised =
      none ∧
    countKey
      (AppMentionRegisterEvent.process_event true true env t thread_ts channel_id store).store
      (register_key t thread_ts channel_id) = 1 ∧
    (∀ k2 : DKey, k2 ≠ register_key t thread_ts channel_id →
      entriesFor
        (AppMentionRegisterEvent.process_event true true env t thread_ts channel_id store).store
        k2 = entriesFor store k2) ∧
    (register_existing_valid env (register_issue_id t)
        (register_existing store t thread_ts channel_id) = true →
      (AppMentionRegisterEvent.process_event true true env t thread_ts channel_id
          store).jiraCalls =
        [JiraCall.update_link (register_issue_id t)
          ((pyGet (register_existing store t thread_ts channel_id) "jira_link_id").getD "")
          env.thread_link
          (AppMentionRegisterEvent.get_link_title env.app_name env.channel_name
            (register_link_text t thread_ts))] ∧
      (storeLookup
          (AppMentionRegisterEvent.process_event true true env t thread_ts channel_id store).store
          (register_key t thread_ts channel_id)).bind (fun it => pyGet it "jira_link_id") =
        pyGet (register_existing store t thread_ts channel_id) "jira_link_id") ∧
    (register_existing_valid env (register_issue_id t)
        (register_existing store t thread_ts channel_id) = false →
      (AppMentionRegisterEvent.process_event true true env t thread_ts channel_id
          store).jiraCalls =
        [JiraCall.add_link (register_issue_id t) env.thread_link
          (AppMentionRegisterEvent.get_link_title env.app_name env.channel_name
            (register_link_text t thread_ts))
          env.icon_url env.icon_title] ∧
      (storeLookup
          (AppMentionRegisterEvent.process_event true true env t thread_ts channel_id store).store
          (register_key t thread_ts channel_id)).bind (fun it => pyGet it "jira_link_id") =
        some env.new_link_id) := by
  have hshape := register_store_shape env t thread_ts channel_id store hwf htxt
  have heq := register_process_eq env t thread_ts channel_id store htxt
  refine ⟨?_, ?_, ?_, ?_, ?_⟩
  · rw [heq]
    cases hv : register_existing_valid env (register_issue_id t)
        (register_existing store t thread_ts channel_id) <;> simp [hv]
  · rw [hshape, countKey_append, countKey_delete_item, countKey_singleton _ _ rfl]
  · intro k2 hk2
    rw [hshape, entriesFor_append, entriesFor_delete_item_ne store _ k2 hk2,
      entriesFor_singleton_ne _ k2 (fun hc => hk2 hc.symm), List.append_nil]
  · intro hv
    constructor
    · rw [heq, if_pos hv]
    · obtain ⟨hji, hst, hjl, hca⟩ := register_item_attrs env t thread_ts channel_id store hwf
        ((pyGet (register_existing store t thread_ts channel_id) "jira_link_id").getD "")
      rw [hshape, if_pos hv, storeLookup_delete_append]
      simp only [Option.bind]
      rw [hjl]
      exact pyTruthy_getD _ (register_existing_valid_truthy env _ _ hv)
  · intro hv
    have hv2 : ¬(register_existing_valid env (register_issue_id t)
        (register_existing store t thread_ts channel_id) = true) := by simp [hv]
    obtain ⟨hji, hst, hjl, hca⟩ := register_item_attrs env t thread_ts channel_id store hwf
      env.new_link_id
    constructor
    · rw [heq, if_neg hv2]
    · rw [hshape, if_neg hv2, storeLookup_delete_append]
      simp only [Option.bind]
      exact hjl

/-- C4 (witness). -/
theorem C4_witness :
    (AppMentionRegisterEvent.process_event true true
        ⟨"general", "link", "bot", "icon", "icontitle", "2026-01-01", (fun _ _ => false), "L2"⟩
        "PROJ-1" "T1" "C1" []).raised = none ∧
    countKey (AppMentionRegisterEvent.process_event true true
        ⟨"general", "link", "bot", "icon", "icontitle", "2026-01-01", (fun _ _ => false), "L2"⟩
        "PROJ-1" "T1" "C1" []).store (register_key "PROJ-1" "T1" "C1") = 1 ∧
    (storeLookup (AppMentionRegisterEvent.process_event true true
        ⟨"general", "link", "bot", "icon", "icontitle", "2026-01-01", (fun _ _ => false), "L2"⟩
        "PROJ-1" "T1" "C1" []).store (register_key "PROJ-1" "T1" "C1")).bind
      (fun it => pyGet it "jira_link_id") = some "L2" := by
  have h := C4_register_link_management
    ⟨"general", "link", "bot", "icon", "icontitle", "2026-01-01", (fun _ _ => false), "L2"⟩
    "PROJ-1" "T1" "C1" [] (fun e he => absurd he (List.not_mem_nil e)) (by decide)
  exact ⟨h.1, h.2.1, (h.2.2.2.2 (by decide)).2⟩

/-! ## Claim C10 -/

/-- C10 (amended): every successful run of the link-create (register)
workflow (well-formed store, non-empty command) overwrites the stored
record's created_at attribute with the run's fresh timestamp — including
the case where the registration already existed and its remote link was
still valid — so the original creation timestamp is never preserved across
re-registration; every other pre-existing attribute of the record except
jira_link_id is carried over, and jira_link_id itself is carried over
exactly when the remote link was still valid, being replaced by the fresh
link id otherwise. -/
theorem C10_created_at_amended
    (env : RegEnv) (t thread_ts channel_id : String) (store : Store)
    (hwf : store_wf store) (htxt : t ≠ "") :
    ((storeLookup (AppMentionRegisterEvent.process_event true true env t thread_ts channel_id
          store).store (register_key t thread_ts channel_id)).bind
        (fun it => pyGet it "created_at") = some env.now) ∧
    (∀ k v, k ≠ "created_at" → k ≠ "jira_link_id" →
      pyGet (register_existing store t thread_ts channel_id) k = some v →
      (storeLookup (AppMentionRegisterEvent.process_event true true env t thread_ts channel_id
          store).store (register_key t thread_ts channel_id)).bind (fun it => pyGet it k) =
        some v) ∧
    (register_existing_valid env (register_issue_id t)
        (register_existing store t thread_ts channel_id) = true →
      (storeLookup (AppMentionRegisterEvent.process_event true true env t thread_ts channel_id
          store).store (register_key t thread_ts channel_id)).bind
        (fun it => pyGet it "jira_link_id") =
        pyGet (register_existing store t thread_ts channel_id) "jira_link_id") ∧
    (register_existing_valid env (register_issue_id t)
        (register_existing store t thread_ts channel_id) = false →
      (storeLookup (AppMentionRegisterEvent.process_event true true env t thread_ts channel_id
          store).store (register_key t thread_ts channel_id)).bind
        (fun it => pyGet it "jira_link_id") = some env.new_link_id) := by
  have hshape := register_store_shape env t thread_ts channel_id store hwf htxt
  refine ⟨?_, ?_, ?_, ?_⟩
  · obtain ⟨_, _, _, hca⟩ := register_item_attrs env t thread_ts channel_id store hwf
      (if register_existing_valid env (register_issue_id t)
          (register_existing store t thread_ts channel_id) then
        (pyGet (register_existing store t thread_ts channel_id) "jira_link_id").getD ""
      else env.new_link_id)
    rw [hshape, storeLookup_delete_append]
    simp only [Option.bind]
    exact hca
  · intro k v hkca hkjl hpre
    rw [hshape, storeLookup_delete_append]
    simp only [Option.bind]
    rw [pyGet_register_item, if_neg (fun hc => hkjl hc.symm), if_neg (fun hc => hkca hc.symm)]
    have hlast : lastVal? (register_existing store t thread_ts channel_id) k = some v := by
      simp only [register_existing, DynamoDbWrapper.get_item, Option.getD_some] at hpre ⊢
      cases hlook : storeLookup store (register_key t thread_ts channel_id) with
      | none =>
        rw [hlook, Option.getD_none] at hpre
        simp [pyGet] at hpre
      | some it =>
        rw [hlook, Option.getD_some] at hpre
        rw [Option.getD_some]
        obtain ⟨hnd, _, _⟩ := hwf _ (storeLookup_mem store _ it hlook)
        rw [lastVal?_eq_pyGet it hnd, hpre]
    rw [hlast]
  · intro hv
    obtain ⟨_, _, hjl, _⟩ := register_item_attrs env t thread_ts channel_id store hwf
      ((pyGet (register_existing store t thread_ts channel_id) "jira_link_id").getD "")
    rw [hshape, if_pos hv, storeLookup_delete_append]
    simp only [Option.bind]
    rw [hjl]
    exact pyTruthy_getD _ (register_existing_valid_truthy env _ _ hv)
  · intro hv
    have hv2 : ¬(register_existing_valid env (register_issue_id t)
        (register_existing store t thread_ts channel_id) = true) := by simp [hv]
    obtain ⟨_, _, hjl, _⟩ := register_item_attrs env t thread_ts channel_id store hwf
      env.new_link_id
    rw [hshape, if_neg hv2, storeLookup_delete_append]
    simp only [Option.bind]
    exact hjl

/-- C10 (counterexample to the claim as stated): a successful re-registration
whose existing remote link is no longer valid does not carry over the
pre-existing jira_link_id attribute — it is replaced by the fresh link id —
so not all pre-existing attributes other than created_at are carried over. -/
theorem C10_counterexample :
    (AppMentionRegisterEvent.process_event true true
        ⟨"general", "link", "bot", "icon", "icontitle", "2026-01-01", (fun _ _ => false), "L2"⟩
        "PROJ-1" "T1" "C1"
        [(⟨"PROJ-1", "C1_T1"⟩,
          [("jira_issue_id", "PROJ-1"), ("slack_thread_id", "C1_T1"),
            ("jira_link_id", "L1"), ("created_at", "2020-01-01")])]).raised = none ∧
    pyGet [("jira_issue_id", "PROJ-1"), ("slack_thread_id", "C1_T1"),
        ("jira_link_id", "L1"), ("created_at", "2020-01-01")] "jira_link_id" = some "L1" ∧
    (storeLookup (AppMentionRegisterEvent.process_event true true
        ⟨"general", "link", "bot", "icon", "icontitle", "2026-01-01", (fun _ _ => false), "L2"⟩
        "PROJ-1" "T1" "C1"
        [(⟨"PROJ-1", "C1_T1"⟩,
          [("jira_issue_id", "PROJ-1"), ("slack_thread_id", "C1_T1"),
            ("jira_link_id", "L1"), ("created_at", "2020-01-01")])]).store
        ⟨"PROJ-1", "C1_T1"⟩).bind (fun it => pyGet it "jira_link_id") = some "L2" ∧
    (some "L2" : Option String) ≠ some "L1" :=
  ⟨by decide, by decide, by decide, by decide⟩

/-- C10 (witness). -/
theorem C10_witness :
    ((storeLookup (AppMentionRegisterEvent.process_event true true
        ⟨"general", "link", "bot", "icon", "icontitle", "2026-01-01", (fun _ _ => true), "L2"⟩
        "PROJ-1" "T1" "C1"
        [(⟨"PROJ-1", "C1_T1"⟩,
          [("jira_issue_id", "PROJ-1"), ("slack_thread_id", "C1_T1"),
            ("jira_link_id", "L1"), ("created_at", "2020-01-01")])]).store
        (register_key "PROJ-1" "T1" "C1")).bind (fun it => pyGet it "created_at") =
      some "2026-01-01") ∧
    ((storeLookup (AppMentionRegisterEvent.process_event true true
        ⟨"general", "link", "bot", "icon", "icontitle", "2026-01-01", (fun _ _ => true), "L2"⟩
        "PROJ-1" "T1" "C1"
        [(⟨"PROJ-1", "C1_T1"⟩,
          [("jira_issue_id", "PROJ-1"), ("slack_thread_id", "C1_T1"),
            ("jira_link_id", "L1"), ("created_at", "2020-01-01")])]).store
        (register_key "PROJ-1" "T1" "C1")).bind (fun it => pyGet it "jira_link_id") =
      pyGet (register_existing
        [(⟨"PROJ-1", "C1_T1"⟩,
          [("jira_issue_id", "PROJ-1"), ("slack_thread_id", "C1_T1"),
            ("jira_link_id", "L1"), ("created_at", "2020-01-01")])]
        "PROJ-1" "T1" "C1") "jira_link_id") := by
  have h := C10_created_at_amended
    ⟨"general", "link", "bot", "icon", "icontitle", "2026-01-01", (fun _ _ => true), "L2"⟩
    "PROJ-1" "T1" "C1"
    [(⟨"PROJ-1", "C1_T1"⟩,
      [("jira_issue_id", "PROJ-1"), ("slack_thread_id", "C1_T1"),
        ("jira_link_id", "L1"), ("created_at", "2020-01-01")])]
    (by intro e he; rw [List.mem_singleton] at he; subst he; exact ⟨by decide, rfl, rfl⟩)
    (by decide)
  exact ⟨h.1, h.2.2.1 (by decide)⟩

end SlackToJira
